import Mathlib

/-!
Verification development for the mx3-gym booking client.

The definitions below are a shallow embedding of the TypeScript sources
(src/mx3-client.ts, src/parser.ts, src/types.ts).  Pure functions are
translated directly; the stateful HTTP client is modelled by explicit
state passing, with the remote server abstracted as a function from the
index of the POST exchange to the response body.  HTML parsing (cheerio)
is abstracted as a function from the raw markup string to the list of
matched elements; the per-element logic is translated faithfully.
String primitives used by the JavaScript code (trim, includes,
startsWith, toLowerCase on ASCII data, substring, parseInt with radix
10) are modelled over the character list of the string.
-/

namespace MX3

/-- Model of JavaScript substring containment (String.prototype.includes). -/
def strContainsAux (pat : List Char) : List Char → Bool
  | [] => pat.isEmpty
  | c :: cs => pat.isPrefixOf (c :: cs) || strContainsAux pat cs

/-- JavaScript s.includes(pat). -/
def strContains (s pat : String) : Bool :=
  strContainsAux pat.data s.data

/-- JavaScript s.startsWith(pat). -/
def strStartsWith (s pat : String) : Bool :=
  pat.data.isPrefixOf s.data

/-- JavaScript String.prototype.trim, modelled on the character list. -/
def jsTrim (s : String) : String :=
  ⟨((s.data.dropWhile Char.isWhitespace).reverse.dropWhile Char.isWhitespace).reverse⟩

/-- Uppercase-to-lowercase table for ASCII letters. -/
def lowerPairs : List (Char × Char) :=
  [('A', 'a'), ('B', 'b'), ('C', 'c'), ('D', 'd'), ('E', 'e'), ('F', 'f'),
   ('G', 'g'), ('H', 'h'), ('I', 'i'), ('J', 'j'), ('K', 'k'), ('L', 'l'),
   ('M', 'm'), ('N', 'n'), ('O', 'o'), ('P', 'p'), ('Q', 'q'), ('R', 'r'),
   ('S', 's'), ('T', 't'), ('U', 'u'), ('V', 'v'), ('W', 'w'), ('X', 'x'),
   ('Y', 'y'), ('Z', 'z')]

/-- ASCII lowering of one character; on the ASCII data handled by the
client this agrees with JavaScript String.prototype.toLowerCase. -/
def lowerChar (c : Char) : Char :=
  ((lowerPairs.find? (fun p => p.1 == c)).map (·.2)).getD c

/-- JavaScript s.toLowerCase() on ASCII data. -/
def jsToLower (s : String) : String :=
  ⟨s.data.map lowerChar⟩

/-- JavaScript s.substring(0, n). -/
def strTake (s : String) (n : Nat) : String :=
  ⟨s.data.take n⟩

/-- JavaScript s.length. -/
def strLen (s : String) : Nat :=
  s.data.length

/-- Value of a digit run read in base 10. -/
def digitsToNat (ds : List Char) : Nat :=
  ds.foldl (fun acc c => acc * 10 + (c.toNat - 48)) 0

/-- JavaScript parseInt(s, 10): skip leading whitespace, optional sign,
then the maximal leading digit run; none models NaN. -/
def jsParseInt (s : String) : Option Int :=
  let cs := s.data.dropWhile Char.isWhitespace
  match cs with
  | '-' :: rest =>
    let ds := rest.takeWhile Char.isDigit
    if ds.isEmpty then none else some (-(digitsToNat ds : Int))
  | '+' :: rest =>
    let ds := rest.takeWhile Char.isDigit
    if ds.isEmpty then none else some ((digitsToNat ds : Int))
  | _ =>
    let ds := cs.takeWhile Char.isDigit
    if ds.isEmpty then none else some ((digitsToNat ds : Int))

/-! ## Data model (src/types.ts) -/

/-- Slot availability states parsed from HTML. -/
inductive SlotStatus where
  | available
  | reserved
  | recurring
  | window_closed
deriving DecidableEq, Repr

/-- Station categories at MX3 Fitness. -/
inductive StationType where
  | private_station
  | open_gym
  | cardio
deriving DecidableEq, Repr

/-- Static catalog entry for one station. -/
structure Station where
  id : Nat
  name : String
  type : StationType
  durationMinutes : Nat
deriving DecidableEq, Repr

/-- The STATIONS record of types.ts.  JavaScript objects iterate
integer-like keys in ascending numeric order, so the list is given in
ascending id order, which is the order Object.values observes. -/
def STATIONS : List Station :=
  [ ⟨140, "Noe 1", .private_station, 60⟩,
    ⟨141, "Noe 2", .private_station, 60⟩,
    ⟨142, "Noe 3", .private_station, 60⟩,
    ⟨143, "Noe 4", .private_station, 60⟩,
    ⟨144, "Open Gym 1", .open_gym, 30⟩,
    ⟨145, "Open Gym 2", .open_gym, 30⟩,
    ⟨146, "Open Gym 3", .open_gym, 30⟩,
    ⟨147, "Peloton", .cardio, 30⟩,
    ⟨149, "Tread Mill", .cardio, 30⟩,
    ⟨150, "Air Bike", .cardio, 30⟩,
    ⟨163, "Air Rower", .cardio, 30⟩,
    ⟨164, "Climber", .cardio, 30⟩ ]

/-- Lookup STATIONS[id]. -/
def stationById (n : Int) : Option Station :=
  STATIONS.find? (fun st => (st.id : Int) == n)

/-- Property names inherited from Object.prototype: indexing a plain
JavaScript object (such as the Object.fromEntries result backing
STATION_BY_NAME) with any of these yields a non-undefined inherited
value even when it is not an own key. -/
def objectPrototypeKeys : List String :=
  ["constructor", "__proto__", "hasOwnProperty", "isPrototypeOf",
   "propertyIsEnumerable", "toLocaleString", "toString", "valueOf",
   "__defineGetter__", "__defineSetter__", "__lookupGetter__", "__lookupSetter__"]

/-- Result of indexing STATION_BY_NAME with a key: an own entry gives a
station id number, an Object.prototype property name gives the
inherited non-numeric value, anything else is undefined. -/
inductive NameLookup where
  | num (id : Nat)
  | inherited (key : String)
  | undefined
deriving DecidableEq, Repr

/-- Lookup in STATION_BY_NAME, whose own keys are the lowercased names;
a miss falls through to the prototype chain, as JavaScript property
access does. -/
def stationByLowerName (key : String) : NameLookup :=
  match STATIONS.find? (fun st => jsToLower st.name == key) with
  | some st => .num st.id
  | none => if objectPrototypeKeys.contains key then .inherited key else .undefined

/-- One bookable time slot. -/
structure TimeSlot where
  stationId : Nat
  stationName : String
  stationType : StationType
  date : String
  time : String
  status : SlotStatus
deriving DecidableEq, Repr

/-- Error kinds of a failed booking. -/
inductive BookingError where
  | no_credits
  | duplicate
  | concurrent
  | invalid
  | session_expired
  | network_error
deriving DecidableEq, Repr

/-- Discriminated booking outcome. -/
inductive BookingResult where
  | success (message : String)
  | failure (error : BookingError) (message : String)
deriving DecidableEq, Repr

/-- An extracted reservation; cancelParams is the request body of the
cancellation POST as a key/value list. -/
structure Reservation where
  stationId : Nat
  stationName : String
  date : String
  time : String
  cancelParams : Option (List (String × String))
deriving DecidableEq, Repr

/-! ## Response classifier (src/parser.ts) -/

/-- parseSlotStatus of parser.ts: priority chain over the anchor title
and raw class attribute string. -/
def parseSlotStatus (title classes : String) : SlotStatus :=
  if title = "Reservation window closed" then .window_closed
  else if title = "Reserved for recurring appointment." then .recurring
  else if strStartsWith title "Reserved by" then .reserved
  else if title = "Click to reserve" ∨
          (strContains classes "reserved" = false ∧ strContains classes "gray" = false) then
    .available
  else if strContains classes "reserved" then .reserved
  else if strContains classes "gray" then .window_closed
  else .available

/-- parseBookingResponse of parser.ts. -/
def parseBookingResponse (text : String) : BookingResult :=
  let trimmed := jsTrim text
  if trimmed = "reload" then .failure .no_credits "Out of gym credits"
  else if trimmed = "duplicate" then .failure .duplicate "Slot already reserved"
  else if trimmed = "concurrent" then .failure .concurrent "Overlapping reservation not allowed"
  else if trimmed = "invalid" then .failure .invalid "Invalid station or time"
  else if 0 < strLen trimmed then .success "Slot booked successfully"
  else .failure .invalid "Empty response from server"

/-- isSignInRequired of parser.ts. -/
def isSignInRequired (html : String) : Bool :=
  strContains html "Sign In Required"

/-! ## Markup extractor: credits (src/parser.ts, parseCredits) -/

/-- Abstract HTML element as far as parseCredits needs it: an id and the
text content.  A document is the list of elements of the parsed markup;
the cheerio parse itself is abstracted as a load function. -/
structure HtmlEl where
  id : String
  text : String
deriving DecidableEq, Repr

/-- Model of the cheerio selector by element id. -/
def findById (doc : List HtmlEl) (key : String) : Option HtmlEl :=
  doc.find? (fun e => e.id == key)

/-- The direct path of parseCredits: parseInt(trimmed, 10) must succeed
and round-trip (String(num) === trimmed). -/
def directCredit (trimmed : String) : Option Int :=
  match jsParseInt trimmed with
  | some num => if toString num = trimmed then some num else none
  | none => none

/-- The HTML path of parseCredits: the text of the credit_count element,
trimmed, run through parseInt. -/
def htmlCredit (doc : List HtmlEl) : Option Int :=
  match findById doc "credit_count" with
  | some el => jsParseInt (jsTrim el.text)
  | none => none

/-- parseCredits of parser.ts, with the cheerio parse abstracted as the
load argument. -/
def parseCredits (load : String → List HtmlEl) (text : String) : Except String Int :=
  let trimmed := jsTrim text
  match directCredit trimmed with
  | some num => .ok num
  | none =>
    match htmlCredit (load trimmed) with
    | some val => .ok val
    | none => .error ("Could not parse credit count from: " ++ strTake trimmed 100)

/-! ## Markup extractor: reservations (src/parser.ts, parseReservations) -/

/-- Abstract view of one anchor matched by the cheerio selector
a[href*="unreserve="]: its href attribute (empty when absent) and the
text of its parent row. -/
structure CancelLink where
  href : String
  rowText : String
deriving DecidableEq, Repr

/-- Leftmost match of the regex unreserve=(\d+): find the literal, then a
nonempty maximal digit run; if the literal occurs without digits the
scan continues, as regex backtracking does. -/
def findUnreserveIdAux : List Char → Option String
  | [] => none
  | c :: cs =>
    if ("unreserve=".data).isPrefixOf (c :: cs) then
      let ds := ((c :: cs).drop 10).takeWhile Char.isDigit
      if ds.isEmpty then findUnreserveIdAux cs else some ⟨ds⟩
    else findUnreserveIdAux cs

/-- First capture of unreserve=(\d+) in an href. -/
def findUnreserveId (href : String) : Option String :=
  findUnreserveIdAux href.data

/-- Is this character an a/A or p/P followed by m/M, case-insensitively. -/
def isAmPm (m r : Char) : Bool :=
  (lowerChar m == 'a' || lowerChar m == 'p') && lowerChar r == 'm'

/-- Match the tail ":\d{2}(am|pm)" (case-insensitive) at the head of the
list, returning the matched characters. -/
def matchTimeTail : List Char → Option (List Char)
  | ':' :: a :: b :: m :: r :: _ =>
    if a.isDigit && b.isDigit && isAmPm m r then some [':', a, b, m, r] else none
  | _ => none

/-- Match the regex \d{1,2}:\d{2}(am|pm) at the head of the list, with the
greedy two-digit try first, as the regex engine does. -/
def timeAt : List Char → Option (List Char)
  | [] => none
  | c1 :: rest =>
    if c1.isDigit then
      match rest with
      | c2 :: rest2 =>
        if c2.isDigit then
          match matchTimeTail rest2 with
          | some t => some (c1 :: c2 :: t)
          | none =>
            match matchTimeTail rest with
            | some t => some (c1 :: t)
            | none => none
        else
          match matchTimeTail rest with
          | some t => some (c1 :: t)
          | none => none
      | [] => none
    else none

/-- Leftmost-match scan for the time regex. -/
def findTimeAux : List Char → Option String
  | [] => none
  | c :: cs =>
    match timeAt (c :: cs) with
    | some m => some ⟨m⟩
    | none => findTimeAux cs

/-- First match of /(\d{1,2}:\d{2}(?:am|pm))/i in the row text. -/
def findTime (text : String) : Option String :=
  findTimeAux text.data

/-- Match the regex (\d{2})\/(\d{2}) at the head of the list. -/
def dateAt : List Char → Option (String × String)
  | a :: b :: '/' :: c :: d :: _ =>
    if a.isDigit && b.isDigit && c.isDigit && d.isDigit then
      some (⟨[a, b]⟩, ⟨[c, d]⟩)
    else none
  | _ => none

/-- Leftmost-match scan for the date regex. -/
def findDateAux : List Char → Option (String × String)
  | [] => none
  | c :: cs =>
    match dateAt (c :: cs) with
    | some m => some m
    | none => findDateAux cs

/-- First match of /(\d{2})\/(\d{2})/ in the row text. -/
def findDate (text : String) : Option (String × String) :=
  findDateAux text.data

/-- Station recognition of parseReservations: first catalog entry, in
Object.values order, whose display name is a substring of the row text. -/
def findStation (text : String) : Option Station :=
  STATIONS.find? (fun st => strContains text st.name)

/-- Per-row logic of parseReservations: the current calendar year is an
explicit argument (the code reads new Date().getFullYear()). -/
def rowToReservation (year : Nat) (link : CancelLink) : Option Reservation :=
  match findUnreserveId link.href with
  | none => none
  | some reservationId =>
    match findTime link.rowText with
    | none => none
    | some t =>
      let time := jsToLower t
      let date :=
        match findDate link.rowText with
        | some (mm, dd) => toString year ++ "-" ++ mm ++ "-" ++ dd
        | none => ""
      match findStation link.rowText with
      | none => none
      | some st =>
        if date ≠ "" ∧ time ≠ "" then
          some { stationId := st.id, stationName := st.name, date := date, time := time,
                 cancelParams := some [("v2", "true"), ("unreserve", reservationId),
                                       ("resourceID", toString st.id),
                                       ("loadAjax", "true"), ("layout", "blank")] }
        else none

/-- parseReservations of parser.ts, with the cheerio selector abstracted
as the load argument. -/
def parseReservations (load : String → List CancelLink) (year : Nat) (html : String) :
    List Reservation :=
  if html = "" ∨ jsTrim html = "" then []
  else (load html).filterMap (rowToReservation year)

/-! ## Markup extractor: schedule and dates (src/parser.ts) -/

/-- Abstract view of one p element matched by p[id^="res_time_"]: its id
attribute and the first contained anchor's title and class attributes
(none when the element has no anchor; attribute absent maps to none and
the code substitutes the empty string). -/
structure SlotEl where
  id : String
  anchor : Option (Option String × Option String)
deriving DecidableEq, Repr

/-- Does the list have the exact shape \d{4}-\d{2}-\d{2}. -/
def isDateChars : List Char → Bool
  | [y1, y2, y3, y4, '-', m1, m2, '-', d1, d2] =>
    y1.isDigit && y2.isDigit && y3.isDigit && y4.isDigit &&
      m1.isDigit && m2.isDigit && d1.isDigit && d2.isDigit
  | _ => false

/-- Exact match of ^\d{4}-\d{2}-\d{2}$ on a string. -/
def isIsoDate (s : String) : Bool :=
  isDateChars s.data

/-- Anchored match of ^res_time_(\d+)_(\d{4}-\d{2}-\d{2})_(.+)$ giving the
three captures. -/
def matchResTimeId (id : String) : Option (List Char × String × String) :=
  if ("res_time_".data).isPrefixOf id.data then
    let cs := id.data.drop 9
    let ds := cs.takeWhile Char.isDigit
    if ds.isEmpty then none
    else
      match cs.drop ds.length with
      | '_' :: rest =>
        if isDateChars (rest.take 10) then
          match rest.drop 10 with
          | '_' :: t => if t.isEmpty then none else some (ds, ⟨rest.take 10⟩, ⟨t⟩)
          | _ => none
        else none
      | _ => none
  else none

/-- Per-element logic of parseSchedule. -/
def slotElToSlot (el : SlotEl) : Option TimeSlot :=
  match matchResTimeId el.id with
  | none => none
  | some (ds, date, time) =>
    let stationId := digitsToNat ds
    match stationById (stationId : Int) with
    | none => none
    | some st =>
      match el.anchor with
      | none => none
      | some (title?, classes?) =>
        let title := title?.getD ""
        let classes := classes?.getD ""
        some { stationId := stationId, stationName := st.name, stationType := st.type,
               date := date, time := time, status := parseSlotStatus title classes }

/-- parseSchedule of parser.ts, with the cheerio selector abstracted as
the load argument. -/
def parseSchedule (load : String → List SlotEl) (html : String) : List TimeSlot :=
  (load html).filterMap slotElToSlot

/-- parseAvailableDates of parser.ts: the load argument abstracts the
span.day-box[title] selector, yielding the title attribute values in
document order. -/
def parseAvailableDates (load : String → List String) (html : String) : List String :=
  (load html).filter (fun d => d ≠ "" && isIsoDate d)

/-! ## Session client (src/mx3-client.ts) -/

/-- Observable state of the MX3Client HTTP layer: the size of the cookie
jar, and counters for the login calls, the jar clears, and the POST
exchanges performed. -/
structure ClientState where
  cookies : Nat
  logins : Nat
  clears : Nat
  posts : Nat
deriving DecidableEq, Repr

/-- A successful login: the server sets the session cookie and the client
duplicates it, so the jar holds two cookies (the code throws when fewer
than two are present, which this model treats as the non-error path). -/
def login (st : ClientState) : ClientState :=
  { st with cookies := 2, logins := st.logins + 1 }

/-- One raw POST exchange: the server, abstracted as a map from the index
of the exchange to the response body, answers and the counter advances. -/
def post (server : Nat → String) (st : ClientState) : String × ClientState :=
  (server st.posts, { st with posts := st.posts + 1 })

/-- Body of postWithAuth with the isRetry flag rendered as the number of
retries still allowed (isRetry = false is one remaining retry, isRetry =
true is none): login when the jar is empty, POST, and on a Sign In
Required response clear the jar, re-login and retry; an expired response
with no retry remaining is the fatal session error. -/
def postWithAuthAux (server : Nat → String) : Nat → ClientState →
    Except String String × ClientState
  | retries, st =>
    let st1 := if st.cookies = 0 then login st else st
    let r := post server st1
    if isSignInRequired r.1 then
      match retries with
      | 0 => (.error "Session expired and re-authentication failed", r.2)
      | n + 1 =>
        let st3 := login { r.2 with cookies := 0, clears := r.2.clears + 1 }
        postWithAuthAux server n st3
    else (.ok r.1, r.2)

/-- postWithAuth of mx3-client.ts; the default call has isRetry = false. -/
def postWithAuth (server : Nat → String) (st : ClientState) (isRetry : Bool) :
    Except String String × ClientState :=
  postWithAuthAux server (if isRetry then 0 else 1) st

/-- A station argument to bookSlot or cancelBooking: a JavaScript number
or a string. -/
inductive StationRef where
  | byId (id : Int)
  | byName (name : String)
deriving DecidableEq, Repr

/-- JavaScript template interpolation of the station argument. -/
def refToString : StationRef → String
  | .byId n => toString n
  | .byName s => s

/-- A defined value resolveStationId can return: a station id number,
or the non-numeric value leaked from the Object prototype chain by the
STATION_BY_NAME lookup (the code's id !== undefined test does not rule
it out). -/
inductive ResolvedId where
  | num (id : Nat)
  | jsObject (key : String)
deriving DecidableEq, Repr

/-- JavaScript stringification of a resolved station value when it is
interpolated into a POST body: numbers print in decimal; the leaked
prototype values print as V8 renders them. -/
def resolvedToString : ResolvedId → String
  | .num n => toString n
  | .jsObject k =>
    if k = "__proto__" then "[object Object]"
    else if k = "constructor" then "function Object() \x7b [native code] \x7d"
    else "function " ++ k ++ "() \x7b [native code] \x7d"

/-- resolveStationId of mx3-client.ts: numeric id lookup for numbers;
for strings, the case-insensitive STATION_BY_NAME lookup (returned
whenever it is not undefined, inherited prototype values included) and
then the parseInt fallback against the catalog. -/
def resolveStationId : StationRef → Option ResolvedId
  | .byId n =>
    match stationById n with
    | some st => some (.num st.id)
    | none => none
  | .byName s =>
    match stationByLowerName (jsToLower s) with
    | .num id => some (.num id)
    | .inherited k => some (.jsObject k)
    | .undefined =>
      match jsParseInt s with
      | some num =>
        match stationById num with
        | some st => some (.num st.id)
        | none => none
      | none => none

/-- The comma-separated list of valid station names used in the unknown
station message: Object.values(STATIONS).map(s => s.name).join(', '). -/
def validStationNames : String :=
  String.intercalate ", " (STATIONS.map (·.name))

/-- The reservation-creation POST body of bookSlot. -/
def bookBody (stationId : ResolvedId) (date time : String) : String :=
  "v2=true&reserve=" ++ resolvedToString stationId ++ "&res_date=" ++ date ++
    "&res_time=" ++ time ++ "&loadAjax=true&layout=blank"

/-- bookSlot of mx3-client.ts, with the network abstracted as a function
from request body to response text; the second component lists the
bodies POSTed, so the empty list is the absence of any network call. -/
def bookSlot (respond : String → String) (station : StationRef) (date time : String) :
    BookingResult × List String :=
  match resolveStationId station with
  | none =>
    (.failure .invalid
      ("Unknown station: " ++ refToString station ++ ". Valid names: " ++ validStationNames),
     [])
  | some stationId =>
    let body := bookBody stationId date time
    (parseBookingResponse (respond body), [body])

/-- The reservation match predicate of cancelBooking: strict equality on
station id, date and time (a leaked prototype value equals no number). -/
def resMatches (stationId : Option ResolvedId) (date time : String) (r : Reservation) : Bool :=
  some (ResolvedId.num r.stationId) == stationId && r.date == date && r.time == time

/-- URLSearchParams(...).toString() on the cancelParams pairs; the stored
values are plain alphanumerics, which percent-encoding leaves unchanged. -/
def urlEncodeParams (ps : List (String × String)) : String :=
  String.intercalate "&" (ps.map (fun p => p.1 ++ "=" ++ p.2))

/-- The response handling of cancelBooking (lines 109-114): updated
markup or an empty body is success, anything else is the anomaly
message carrying the first 200 characters of the response. -/
def cancelResponseResult (response : String) : Bool × String :=
  if 0 < strLen response ∨ jsTrim response = "" then
    (true, "Booking cancelled successfully")
  else
    (false, "Unexpected cancel response: " ++ strTake response 200)

/-- cancelBooking of mx3-client.ts, with the already-fetched reservations
of getMyBookings passed in and the network abstracted as a function from
request body to response text; the second component lists the cancel
bodies POSTed. -/
def cancelBooking (bookings : List Reservation) (respond : String → String)
    (stationName : StationRef) (date time : String) : (Bool × String) × List String :=
  let stationId := resolveStationId stationName
  match bookings.find? (resMatches stationId date time) with
  | none =>
    ((false, "No booking found for " ++ refToString stationName ++ " on " ++ date ++
        " at " ++ time), [])
  | some r =>
    match r.cancelParams with
    | none => ((false, "No cancel params available for this reservation"), [])
    | some ps =>
      let body := urlEncodeParams ps
      (cancelResponseResult (respond body), [body])

/-! ## Helper lemmas -/

/-- A string different from the empty string has positive length. -/
theorem strLen_pos_of_ne_empty {s : String} (h : s ≠ "") : 0 < strLen s := by
  cases s with
  | mk data =>
    cases data with
    | nil => exact absurd rfl h
    | cons c cs => simp [strLen]

/-- Every value in the lowering table is itself outside the table's keys. -/
theorem lowerPairs_value_not_key :
    ∀ p ∈ lowerPairs, lowerPairs.find? (fun q => q.1 == p.2) = none := by decide

/-- ASCII lowering of one character is idempotent. -/
theorem lowerChar_idem (c : Char) : lowerChar (lowerChar c) = lowerChar c := by
  rcases h : lowerPairs.find? (fun p => p.1 == c) with _ | p
  · simp [lowerChar, h]
  · have hp : p ∈ lowerPairs := List.mem_of_find?_eq_some h
    simp [lowerChar, h, lowerPairs_value_not_key p hp]

/-- Lowering a character list is idempotent. -/
theorem map_lowerChar_idem (l : List Char) :
    (l.map lowerChar).map lowerChar = l.map lowerChar := by
  induction l with
  | nil => rfl
  | cons c cs ih => simp only [List.map_cons, ih, lowerChar_idem]

/-- JavaScript lowering of a string is idempotent. -/
theorem jsToLower_idem (s : String) : jsToLower (jsToLower s) = jsToLower s := by
  cases s with
  | mk data =>
    show String.mk ((data.map lowerChar).map lowerChar) = String.mk (data.map lowerChar)
    exact congrArg String.mk (map_lowerChar_idem data)

/-! ## Claim theorems -/

/-- C2: parseSlotStatus is total and follows the stated priority chain,
first match winning: exact title "Reservation window closed" gives
window_closed; exact title "Reserved for recurring appointment." gives
recurring; title starting with "Reserved by" gives reserved; title
exactly "Click to reserve", or the class list lacking both "reserved"
and "gray", gives available; else a class list containing "reserved"
gives reserved; else one containing "gray" gives window_closed; else
available.  The three title rules hold for every class string, so a
title rule always dominates a class rule when both apply. -/
theorem parseSlotStatus_priority_chain (title classes : String) :
    (title = "Reservation window closed" →
      parseSlotStatus title classes = .window_closed) ∧
    (title ≠ "Reservation window closed" →
      title = "Reserved for recurring appointment." →
      parseSlotStatus title classes = .recurring) ∧
    (title ≠ "Reservation window closed" →
      title ≠ "Reserved for recurring appointment." →
      strStartsWith title "Reserved by" = true →
      parseSlotStatus title classes = .reserved) ∧
    (title ≠ "Reservation window closed" →
      title ≠ "Reserved for recurring appointment." →
      strStartsWith title "Reserved by" = false →
      (title = "Click to reserve" ∨
        (strContains classes "reserved" = false ∧ strContains classes "gray" = false)) →
      parseSlotStatus title classes = .available) ∧
    (title ≠ "Reservation window closed" →
      title ≠ "Reserved for recurring appointment." →
      strStartsWith title "Reserved by" = false →
      title ≠ "Click to reserve" →
      strContains classes "reserved" = true →
      parseSlotStatus title classes = .reserved) ∧
    (title ≠ "Reservation window closed" →
      title ≠ "Reserved for recurring appointment." →
      strStartsWith title "Reserved by" = false →
      title ≠ "Click to reserve" →
      strContains classes "reserved" = false →
      strContains classes "gray" = true →
      parseSlotStatus title classes = .window_closed) ∧
    (title ≠ "Reservation window closed" →
      title ≠ "Reserved for recurring appointment." →
      strStartsWith title "Reserved by" = false →
      title ≠ "Click to reserve" →
      strContains classes "reserved" = false →
      strContains classes "gray" = false →
      parseSlotStatus title classes = .available) := by
  refine ⟨?_, ?_, ?_, ?_, ?_, ?_, ?_⟩
  · intro h1
    simp [parseSlotStatus, h1]
  · intro h1 h2
    simp [parseSlotStatus, h1, h2]
  · intro h1 h2 h3
    simp [parseSlotStatus, h1, h2, h3]
  · intro h1 h2 h3 h4
    simp [parseSlotStatus, h1, h2, h3, h4]
  · intro h1 h2 h3 h4 h5
    simp [parseSlotStatus, h1, h2, h3, h4, h5]
  · intro h1 h2 h3 h4 h5 h6
    simp [parseSlotStatus, h1, h2, h3, h4, h5, h6]
  · intro h1 h2 h3 h4 h5 h6
    simp [parseSlotStatus, h1, h2, h3, h4, h5, h6]

/-- Witness for C2: a title rule fires against conflicting classes, and
the class fallbacks fire when no title rule applies. -/
theorem parseSlotStatus_priority_chain_witness :
    parseSlotStatus "Reserved by Ann" "reserved gray" = .reserved ∧
    parseSlotStatus "slot" "taken reserved" = .reserved ∧
    parseSlotStatus "slot" "gray out" = .window_closed :=
  ⟨(parseSlotStatus_priority_chain "Reserved by Ann" "reserved gray").2.2.1
      (by decide) (by decide) (by decide),
   (parseSlotStatus_priority_chain "slot" "taken reserved").2.2.2.2.1
      (by decide) (by decide) (by decide) (by decide) (by decide),
   (parseSlotStatus_priority_chain "slot" "gray out").2.2.2.2.2.1
      (by decide) (by decide) (by decide) (by decide) (by decide) (by decide)⟩

/-- C3: parseBookingResponse is total and classifies by exact match on
the trimmed text: "reload" is the no_credits failure, "duplicate",
"concurrent" and "invalid" the corresponding failures, any other text
that is non-empty after trimming is a success, and text that is empty
after trimming is a failure with a generic message. -/
theorem parseBookingResponse_vocabulary (text : String) :
    (jsTrim text = "reload" →
      parseBookingResponse text = .failure .no_credits "Out of gym credits") ∧
    (jsTrim text = "duplicate" →
      parseBookingResponse text = .failure .duplicate "Slot already reserved") ∧
    (jsTrim text = "concurrent" →
      parseBookingResponse text = .failure .concurrent "Overlapping reservation not allowed") ∧
    (jsTrim text = "invalid" →
      parseBookingResponse text = .failure .invalid "Invalid station or time") ∧
    (jsTrim text ≠ "reload" → jsTrim text ≠ "duplicate" → jsTrim text ≠ "concurrent" →
      jsTrim text ≠ "invalid" → jsTrim text ≠ "" →
      parseBookingResponse text = .success "Slot booked successfully") ∧
    (jsTrim text = "" →
      parseBookingResponse text = .failure .invalid "Empty response from server") := by
  refine ⟨?_, ?_, ?_, ?_, ?_, ?_⟩
  · intro h1
    simp [parseBookingResponse, h1]
  · intro h1
    simp [parseBookingResponse, h1]
  · intro h1
    simp [parseBookingResponse, h1]
  · intro h1
    simp [parseBookingResponse, h1]
  · intro h1 h2 h3 h4 h5
    simp [parseBookingResponse, h1, h2, h3, h4, strLen_pos_of_ne_empty h5]
  · intro h1
    simp [parseBookingResponse, h1, strLen]

/-- Witness for C3: the vocabulary, an unknown non-empty text, and a
blank text, classified at concrete inputs. -/
theorem parseBookingResponse_vocabulary_witness :
    parseBookingResponse " reload " = .failure .no_credits "Out of gym credits" ∧
    parseBookingResponse "duplicate" = .failure .duplicate "Slot already reserved" ∧
    parseBookingResponse "concurrent" = .failure .concurrent "Overlapping reservation not allowed" ∧
    parseBookingResponse "invalid" = .failure .invalid "Invalid station or time" ∧
    parseBookingResponse "<p>slot</p>" = .success "Slot booked successfully" ∧
    parseBookingResponse "  " = .failure .invalid "Empty response from server" :=
  ⟨(parseBookingResponse_vocabulary " reload ").1 (by decide),
   (parseBookingResponse_vocabulary "duplicate").2.1 (by decide),
   (parseBookingResponse_vocabulary "concurrent").2.2.1 (by decide),
   (parseBookingResponse_vocabulary "invalid").2.2.2.1 (by decide),
   (parseBookingResponse_vocabulary "<p>slot</p>").2.2.2.2.1
      (by decide) (by decide) (by decide) (by decide) (by decide),
   (parseBookingResponse_vocabulary "  ").2.2.2.2.2 (by decide)⟩

/-- C4: on the cancellation POST, a response that is updated markup
(non-empty) or an empty body is a success, and any other response would
be reported as a failure whose message includes the first 200 characters
of the response; when a matching reservation with stored cancelParams
exists, cancelBooking classifies the response to the POST of exactly
those cancelParams this way. -/
theorem cancelBooking_response_classification (bookings : List Reservation)
    (respond : String → String) (station : StationRef) (date time : String) :
    (∀ r ps, bookings.find? (resMatches (resolveStationId station) date time) = some r →
      r.cancelParams = some ps →
      cancelBooking bookings respond station date time
        = (cancelResponseResult (respond (urlEncodeParams ps)), [urlEncodeParams ps])) ∧
    (∀ response : String, 0 < strLen response ∨ jsTrim response = "" →
      cancelResponseResult response = (true, "Booking cancelled successfully")) ∧
    (∀ response : String, ¬(0 < strLen response ∨ jsTrim response = "") →
      cancelResponseResult response
        = (false, "Unexpected cancel response: " ++ strTake response 200)) := by
  refine ⟨?_, ?_, ?_⟩
  · intro r ps hf hp
    simp [cancelBooking, hf, hp]
  · intro response h
    simp [cancelResponseResult, h]
  · intro response h
    simp [cancelResponseResult, h]

/-- Witness for C4: a stored reservation is cancelled by POSTing its
cancelParams and the markup response reads as success; a non-empty
response and an empty response both classify as success. -/
theorem cancelBooking_response_classification_witness :
    cancelBooking
        [⟨140, "Noe 1", "2026-02-09", "9:00pm",
          some [("v2", "true"), ("unreserve", "128242"), ("resourceID", "140"),
                ("loadAjax", "true"), ("layout", "blank")]⟩]
        (fun _ => "<p>updated</p>") (.byName "Noe 1") "2026-02-09" "9:00pm"
      = (cancelResponseResult "<p>updated</p>",
         ["v2=true&unreserve=128242&resourceID=140&loadAjax=true&layout=blank"]) ∧
    cancelResponseResult "<p>updated</p>" = (true, "Booking cancelled successfully") ∧
    cancelResponseResult "" = (true, "Booking cancelled successfully") := by
  refine ⟨?_, ?_, ?_⟩
  · rw [(cancelBooking_response_classification
        [⟨140, "Noe 1", "2026-02-09", "9:00pm",
          some [("v2", "true"), ("unreserve", "128242"), ("resourceID", "140"),
                ("loadAjax", "true"), ("layout", "blank")]⟩]
        (fun _ => "<p>updated</p>") (.byName "Noe 1") "2026-02-09" "9:00pm").1
        ⟨140, "Noe 1", "2026-02-09", "9:00pm",
          some [("v2", "true"), ("unreserve", "128242"), ("resourceID", "140"),
                ("loadAjax", "true"), ("layout", "blank")]⟩
        [("v2", "true"), ("unreserve", "128242"), ("resourceID", "140"),
         ("loadAjax", "true"), ("layout", "blank")]
        (by decide) rfl]
    rfl
  · exact (cancelBooking_response_classification [] (fun _ => "") (.byName "Noe 1") "" "").2.1
      "<p>updated</p>" (Or.inl (by decide))
  · exact (cancelBooking_response_classification [] (fun _ => "") (.byName "Noe 1") "" "").2.1
      "" (Or.inr (by decide))

/-- C1: when the client holds cookies and the POST response is detected
as session-expired, postWithAuth clears the cookie jar once, re-logs in
exactly once, and retries the original request exactly once (two POSTs
in total); if the retried request's response is again session-expired
the operation fails with the fatal session error, and in either case no
further retry happens. -/
theorem postWithAuth_expiry_retry (server : Nat → String) (st : ClientState)
    (hc : st.cookies ≠ 0) (h1 : isSignInRequired (server st.posts) = true) :
    (postWithAuth server st false).2.clears = st.clears + 1 ∧
    (postWithAuth server st false).2.logins = st.logins + 1 ∧
    (postWithAuth server st false).2.posts = st.posts + 2 ∧
    (isSignInRequired (server (st.posts + 1)) = true →
      (postWithAuth server st false).1
        = .error "Session expired and re-authentication failed") ∧
    (isSignInRequired (server (st.posts + 1)) = false →
      (postWithAuth server st false).1 = .ok (server (st.posts + 1))) := by
  by_cases h2 : isSignInRequired (server (st.posts + 1)) = true
  · simp [postWithAuth, postWithAuthAux, post, login, hc, h1, h2]
  · simp [postWithAuth, postWithAuthAux, post, login, hc, h1, h2]

/-- Witness for C1: with a server that always reports Sign In Required,
one authenticated call performs exactly two POSTs and one re-login and
surfaces the fatal session error; with a server that recovers after one
expiry, the retry succeeds. -/
theorem postWithAuth_expiry_retry_witness :
    (postWithAuth (fun _ => "Sign In Required") ⟨2, 1, 0, 0⟩ false).2
      = ⟨2, 2, 1, 2⟩ ∧
    (postWithAuth (fun _ => "Sign In Required") ⟨2, 1, 0, 0⟩ false).1
      = .error "Session expired and re-authentication failed" ∧
    (postWithAuth (fun n => if n = 0 then "Sign In Required" else "booked") ⟨2, 1, 0, 0⟩ false).1
      = .ok "booked" := by
  have ha := postWithAuth_expiry_retry (fun _ => "Sign In Required") ⟨2, 1, 0, 0⟩
    (by decide) (by decide)
  have hb := postWithAuth_expiry_retry (fun n => if n = 0 then "Sign In Required" else "booked")
    ⟨2, 1, 0, 0⟩ (by decide) (by decide)
  refine ⟨?_, ha.2.2.2.1 (by decide), hb.2.2.2.2 (by decide)⟩
  have hclears := ha.1
  have hlogins := ha.2.1
  have hposts := ha.2.2.1
  have hcookies :
      (postWithAuth (fun _ => "Sign In Required") ⟨2, 1, 0, 0⟩ false).2.cookies = 2 := rfl
  cases hst : (postWithAuth (fun _ => "Sign In Required") ⟨2, 1, 0, 0⟩ false).2
  rw [hst] at hclears hlogins hposts hcookies
  simp_all

/-- C5 counterexample: on the input "\tnot a number" (whose cheerio parse
has no credit_count element) parseCredits fails, but the error message
does not carry the first 100 characters of the input: the tab that
trimming removed never appears in the message. -/
theorem parseCredits_snippet_counterexample :
    parseCredits (fun _ => []) "\tnot a number"
        = .error "Could not parse credit count from: not a number" ∧
    strContains "Could not parse credit count from: not a number"
        (strTake "\tnot a number" 100) = false :=
  ⟨rfl, by decide⟩

/-- C5 (amended): parseCredits returns the integer directly when the
trimmed text is a canonical integer literal (parseInt succeeds and
round-trips); otherwise it parses the text as HTML and returns the
parseInt value of the credit_count element's trimmed text when that
succeeds; when neither path yields an integer it fails with a parse
error whose message carries the first 100 characters of the trimmed
input. -/
theorem parseCredits_cases (load : String → List HtmlEl) (text : String) :
    (∀ n : Int, jsParseInt (jsTrim text) = some n → toString n = jsTrim text →
      parseCredits load text = .ok n) ∧
    (directCredit (jsTrim text) = none →
      ∀ el, findById (load (jsTrim text)) "credit_count" = some el →
      ∀ v : Int, jsParseInt (jsTrim el.text) = some v →
        parseCredits load text = .ok v) ∧
    (directCredit (jsTrim text) = none →
      htmlCredit (load (jsTrim text)) = none →
      parseCredits load text
        = .error ("Could not parse credit count from: " ++ strTake (jsTrim text) 100)) := by
  refine ⟨?_, ?_, ?_⟩
  · intro n hp ht
    have hd : directCredit (jsTrim text) = some n := by
      simp [directCredit, hp, ht]
    simp [parseCredits, hd]
  · intro hd el hel v hv
    have hh : htmlCredit (load (jsTrim text)) = some v := by
      simp [htmlCredit, hel, hv]
    simp [parseCredits, hd, hh]
  · intro hd hh
    simp [parseCredits, hd, hh]

/-- Witness for C5 (amended): the direct path on "3" and on " 12 ", the
HTML path on a document with a credit_count element, and the parse
error carrying the truncated trimmed input. -/
theorem parseCredits_cases_witness :
    parseCredits (fun _ => []) "3" = .ok 3 ∧
    parseCredits (fun _ => []) " 12 " = .ok 12 ∧
    parseCredits (fun _ => [⟨"credit_count", " 7 "⟩]) "<b id=credit_count>7</b>" = .ok 7 ∧
    parseCredits (fun _ => []) "nope" = .error "Could not parse credit count from: nope" :=
  ⟨(parseCredits_cases (fun _ => []) "3").1 3 (by decide) (by decide),
   (parseCredits_cases (fun _ => []) " 12 ").1 12 (by decide) (by decide),
   (parseCredits_cases (fun _ => [⟨"credit_count", " 7 "⟩]) "<b id=credit_count>7</b>").2.1
      (by decide) ⟨"credit_count", " 7 "⟩ (by decide) 7 (by decide),
   (parseCredits_cases (fun _ => []) "nope").2.2 (by decide) (by decide)⟩

/-- C7 counterexample: "constructor" resolves by none of the claimed
three rules (not a catalog name, not numeric), yet the STATION_BY_NAME
lookup finds the inherited Object.prototype.constructor, which is not
undefined, so bookSlot proceeds to POST a booking body instead of
returning the local invalid failure without a network call. -/
theorem bookSlot_proto_key_counterexample :
    STATIONS.find? (fun st => jsToLower st.name == "constructor") = none ∧
    jsParseInt "constructor" = none ∧
    resolveStationId (.byName "constructor") = some (.jsObject "constructor") ∧
    (bookSlot (fun _ => "<p>slot html</p>") (.byName "constructor") "2026-02-09" "9:00pm").2
      ≠ [] ∧
    (bookSlot (fun _ => "<p>slot html</p>") (.byName "constructor") "2026-02-09" "9:00pm").1
      = .success "Slot booked successfully" :=
  ⟨by decide, by decide, by decide, by decide, rfl⟩

/-- C7 (amended): a station argument that resolves against the catalog
by none of the case-insensitive name match, the numeric id match, or
the numeric-string fallback, and whose lowercased form is not an
inherited Object.prototype property name (such as "constructor" or
"__proto__", for which the name lookup leaks the inherited value and a
POST is made), makes bookSlot return the typed "invalid" failure whose
message enumerates the valid station names, and no POST is issued; the
enumeration is the comma-separated catalog name list.  With the
faithful lookup, resolveStationId station = none states exactly that
all three rules and the prototype chain miss. -/
theorem bookSlot_unknown_station (respond : String → String) (station : StationRef)
    (date time : String) (h : resolveStationId station = none) :
    bookSlot respond station date time
      = (.failure .invalid ("Unknown station: " ++ refToString station ++
          ". Valid names: " ++ validStationNames), []) ∧
    validStationNames
      = "Noe 1, Noe 2, Noe 3, Noe 4, Open Gym 1, Open Gym 2, Open Gym 3, Peloton, Tread Mill, Air Bike, Air Rower, Climber" := by
  constructor
  · simp [bookSlot, h]
  · rfl

/-- Witness for C7: an uncatalogued name and an uncatalogued id both
fail locally with the enumerating message and an empty request list. -/
theorem bookSlot_unknown_station_witness :
    bookSlot (fun _ => "ok") (.byName "squat rack") "2026-02-09" "9:00pm"
      = (.failure .invalid ("Unknown station: squat rack. Valid names: " ++ validStationNames),
         []) ∧
    bookSlot (fun _ => "ok") (.byId 999) "2026-02-09" "9:00pm"
      = (.failure .invalid ("Unknown station: 999. Valid names: " ++ validStationNames),
         []) :=
  ⟨(bookSlot_unknown_station (fun _ => "ok") (.byName "squat rack") "2026-02-09" "9:00pm"
      (by decide)).1,
   (bookSlot_unknown_station (fun _ => "ok") (.byId 999) "2026-02-09" "9:00pm"
      (by decide)).1⟩

/-- C9: the numeric-string fallback of resolveStationId uses prefix
integer parsing: a string that is not a catalogued name but whose
leading characters form a catalogued numeric id resolves to that
station, and bookSlot proceeds to POST the booking body instead of
returning the invalid failure. -/
theorem bookSlot_numeric_prefix_fallback (respond : String → String)
    (date time s : String) (n : Int) (st : Station)
    (hname : stationByLowerName (jsToLower s) = .undefined)
    (hparse : jsParseInt s = some n)
    (hst : stationById n = some st) :
    resolveStationId (.byName s) = some (.num st.id) ∧
    bookSlot respond (.byName s) date time
      = (parseBookingResponse (respond (bookBody (.num st.id) date time)),
         [bookBody (.num st.id) date time]) := by
  have hres : resolveStationId (.byName s) = some (.num st.id) := by
    simp [resolveStationId, hname, hparse, hst]
  exact ⟨hres, by simp [bookSlot, hres]⟩

/-- Witness for C9: "140abc" and "140 extra" both resolve to station 140
and the booking POST is sent. -/
theorem bookSlot_numeric_prefix_fallback_witness :
    resolveStationId (.byName "140abc") = some (.num 140) ∧
    (bookSlot (fun _ => "ok") (.byName "140abc") "2026-02-09" "9:00pm").2
      = ["v2=true&reserve=140&res_date=2026-02-09&res_time=9:00pm&loadAjax=true&layout=blank"] ∧
    resolveStationId (.byName "140 extra") = some (.num 140) := by
  have ha := bookSlot_numeric_prefix_fallback (fun _ => "ok") "2026-02-09" "9:00pm"
    "140abc" 140 ⟨140, "Noe 1", .private_station, 60⟩ (by decide) (by decide) (by decide)
  have hb := bookSlot_numeric_prefix_fallback (fun _ => "ok") "2026-02-09" "9:00pm"
    "140 extra" 140 ⟨140, "Noe 1", .private_station, 60⟩ (by decide) (by decide) (by decide)
  exact ⟨ha.1, by rw [ha.2]; rfl, hb.1⟩

/-- C6: parseReservations returns the empty list on empty or blank
input; every emitted reservation stems from a cancel link and carries as
cancelParams exactly the cancellation request body (the unreserve id of
the link, the resolved station id as resourceID, and the fixed flags
v2=true, loadAjax=true, layout=blank); and a row missing a time, a date
or a recognized station name emits no reservation. -/
theorem parseReservations_cancelParams :
    (∀ (load : String → List CancelLink) (year : Nat) (html : String),
      jsTrim html = "" → parseReservations load year html = []) ∧
    (∀ (load : String → List CancelLink) (year : Nat) (html : String) (r : Reservation),
      r ∈ parseReservations load year html →
      ∃ link, link ∈ load html ∧ rowToReservation year link = some r) ∧
    (∀ (year : Nat) (link : CancelLink) (r : Reservation),
      rowToReservation year link = some r →
      ∃ rid st, findUnreserveId link.href = some rid ∧
        findStation link.rowText = some st ∧ r.stationId = st.id ∧
        r.cancelParams = some [("v2", "true"), ("unreserve", rid),
          ("resourceID", toString st.id), ("loadAjax", "true"), ("layout", "blank")]) ∧
    (∀ (year : Nat) (link : CancelLink),
      findTime link.rowText = none ∨ findDate link.rowText = none ∨
        findStation link.rowText = none →
      rowToReservation year link = none) := by
  refine ⟨?_, ?_, ?_, ?_⟩
  · intro load year html h
    simp [parseReservations, h]
  · intro load year html r hmem
    by_cases hb : html = "" ∨ jsTrim html = ""
    · rw [parseReservations, if_pos hb] at hmem
      exact absurd hmem (List.not_mem_nil r)
    · rw [parseReservations, if_neg hb] at hmem
      exact List.mem_filterMap.mp hmem
  · intro year link r h
    rcases hu : findUnreserveId link.href with _ | rid
    · rw [rowToReservation, hu] at h
      exact absurd h (by simp)
    rcases ht : findTime link.rowText with _ | t
    · rw [rowToReservation, hu] at h
      simp only [ht] at h
      exact absurd h (by simp)
    rcases hs : findStation link.rowText with _ | st
    · rw [rowToReservation, hu] at h
      simp only [ht, hs] at h
      exact absurd h (by simp)
    rw [rowToReservation, hu] at h
    simp only [ht, hs] at h
    split at h
    · injection h with h2
      refine ⟨rid, st, rfl, rfl, ?_, ?_⟩
      · rw [← h2]
      · rw [← h2]
    · exact absurd h (by simp)
  · intro year link h
    rcases hu : findUnreserveId link.href with _ | rid
    · rw [rowToReservation, hu]
    rcases ht : findTime link.rowText with _ | t
    · rw [rowToReservation, hu]
      simp only [ht]
    rcases hs : findStation link.rowText with _ | st
    · rw [rowToReservation, hu]
      simp only [ht, hs]
    rcases h with h | h | h
    · exact absurd ht (by simp [h])
    · rw [rowToReservation, hu]
      simp only [ht, hs, h]
      simp
    · exact absurd hs (by simp [h])

/-- Witness for C6: blank input yields no reservations, and a row whose
text has no time pattern yields no reservation. -/
theorem parseReservations_cancelParams_witness :
    parseReservations
        (fun _ => [⟨"reserve-noe-station?unreserve=128242",
                    "Noe 1: Monday 02/09 at 9:00pm cancel reservation"⟩]) 2026 "  " = [] ∧
    rowToReservation 2026
        ⟨"reserve-noe-station?unreserve=128242", "Noe 1: Monday 02/09 at nine cancel"⟩
      = none :=
  ⟨parseReservations_cancelParams.1
      (fun _ => [⟨"reserve-noe-station?unreserve=128242",
                  "Noe 1: Monday 02/09 at 9:00pm cancel reservation"⟩]) 2026 "  " (by decide),
   parseReservations_cancelParams.2.2.2 2026
      ⟨"reserve-noe-station?unreserve=128242", "Noe 1: Monday 02/09 at nine cancel"⟩
      (Or.inl (by decide))⟩

/-- C10: extraction lower-cases reservation times, and cancelBooking
matches by exact string equality on (stationId, date, time): a queried
time that is not lowercase-fixed (as any time differing from a stored
lowercase one only in letter case is) matches no extracted reservation,
so the call returns the local not-found failure and sends no cancel
POST. -/
theorem cancelBooking_time_case_sensitive :
    (∀ (year : Nat) (link : CancelLink) (r : Reservation),
      rowToReservation year link = some r → jsToLower r.time = r.time) ∧
    (∀ (bookings : List Reservation) (respond : String → String) (station : StationRef)
        (date time : String),
      (∀ r ∈ bookings, jsToLower r.time = r.time) →
      jsToLower time ≠ time →
      cancelBooking bookings respond station date time
        = ((false, "No booking found for " ++ refToString station ++ " on " ++ date ++
            " at " ++ time), [])) := by
  constructor
  · intro year link r h
    rcases hu : findUnreserveId link.href with _ | rid
    · rw [rowToReservation, hu] at h
      exact absurd h (by simp)
    rcases ht : findTime link.rowText with _ | t
    · rw [rowToReservation, hu] at h
      simp only [ht] at h
      exact absurd h (by simp)
    rcases hs : findStation link.rowText with _ | st
    · rw [rowToReservation, hu] at h
      simp only [ht, hs] at h
      exact absurd h (by simp)
    rw [rowToReservation, hu] at h
    simp only [ht, hs] at h
    split at h
    · injection h with h2
      rw [← h2]
      exact jsToLower_idem t
    · exact absurd h (by simp)
  · intro bookings respond station date time hlow hne
    have hfind : bookings.find? (resMatches (resolveStationId station) date time) = none := by
      rw [List.find?_eq_none]
      intro r hr
      simp only [resMatches, Bool.and_eq_true, beq_iff_eq, not_and]
      rintro ⟨-, -⟩ h3
      exact hne (h3 ▸ hlow r hr)
    simp [cancelBooking, hfind]

/-- Witness for C10: the extracted 9:00pm reservation is lowercase, and
querying it as 9:00PM returns the local not-found failure with no POST. -/
theorem cancelBooking_time_case_sensitive_witness :
    jsToLower "9:00pm" = "9:00pm" ∧
    cancelBooking
        [⟨140, "Noe 1", "2026-02-09", "9:00pm",
          some [("v2", "true"), ("unreserve", "128242"), ("resourceID", "140"),
                ("loadAjax", "true"), ("layout", "blank")]⟩]
        (fun _ => "") (.byName "Noe 1") "2026-02-09" "9:00PM"
      = ((false, "No booking found for Noe 1 on 2026-02-09 at 9:00PM"), []) :=
  ⟨cancelBooking_time_case_sensitive.1 2026
      ⟨"reserve-noe-station?unreserve=128242", "Noe 1: Monday 02/09 at 9:00pm cancel reservation"⟩
      ⟨140, "Noe 1", "2026-02-09", "9:00pm",
        some [("v2", "true"), ("unreserve", "128242"), ("resourceID", "140"),
              ("loadAjax", "true"), ("layout", "blank")]⟩ (by decide),
   cancelBooking_time_case_sensitive.2
      [⟨140, "Noe 1", "2026-02-09", "9:00pm",
        some [("v2", "true"), ("unreserve", "128242"), ("resourceID", "140"),
              ("loadAjax", "true"), ("layout", "blank")]⟩]
      (fun _ => "") (.byName "Noe 1") "2026-02-09" "9:00PM" (by decide) (by decide)⟩

/-- C8 counterexample: parseReservations reads the clock's calendar year
(new Date().getFullYear()), so two calls on identical markup made in
different calendar years return different reservation dates; the
extractor is therefore not a pure function of the markup alone. -/
theorem parseReservations_clock_counterexample :
    parseReservations
        (fun _ => [⟨"reserve-noe-station?unreserve=128300",
                    "Noe 3: Tuesday 02/10 at 6:00am cancel reservation"⟩])
        2025 "<div id=my_reservations>r</div>"
      ≠ parseReservations
        (fun _ => [⟨"reserve-noe-station?unreserve=128300",
                    "Noe 3: Tuesday 02/10 at 6:00am cancel reservation"⟩])
        2026 "<div id=my_reservations>r</div>" := by decide

/-- C8 (amended): extractSchedule, extractCredits and
extractAvailableDates are pure functions of the markup they are given
(together with the parse of that markup): repeating a call on identical
input yields identical, order-stable results; these source functions
read nothing but their parameters.  extractReservations additionally
reads the current calendar year from the clock, so it is deterministic
only once that year is fixed: two calls on identical markup within the
same calendar year agree. -/
theorem extractors_deterministic (loadS : String → List SlotEl)
    (loadC : String → List HtmlEl) (loadR : String → List CancelLink)
    (loadD : String → List String) (year : Nat) (html : String) :
    parseSchedule loadS html = parseSchedule loadS html ∧
    parseCredits loadC html = parseCredits loadC html ∧
    parseAvailableDates loadD html = parseAvailableDates loadD html ∧
    parseReservations loadR year html = parseReservations loadR year html :=
  ⟨rfl, rfl, rfl, rfl⟩

end MX3
